import Mathlib

/-!
Shallow embedding of `src/baslerwrappers.py` (a thin wrapper around the
pypylon camera SDK) and proofs about its claims.

The Python module has no loops and no data structures of its own: every
function is a straight-line sequence of SDK calls, some guarded by
writability checks, wrapped in try/except blocks.  We embed each function
as a Lean function over an explicit camera / SDK-environment state.
External SDK behaviour (whether a device call succeeds, what a grab
returns, whether the device rejects a field write) is a parameter of the
embedding, since the Python code only reacts to it.  Each embedded
function returns, besides its Python return value / raised exception
(as an `Except`), the ordered list of externally visible actions it
performed, so that ordering and resource-release claims can be stated.
-/

/-- Exceptions of the genicam / pylon layer as seen by this module.
`genericException` models `genicam.GenericException` raised by an SDK
call; `runtimeException` models the `genicam.RuntimeException` that
`change_ROI` / `max_ROI` raise themselves. -/
inductive GenicamError where
  | genericException (desc : String)
  | runtimeException (msg : String)
  deriving DecidableEq, Repr

/-- Description string of a genicam error (`e.GetDescription()` /
`e.what()` in the Python code). -/
def GenicamError.desc : GenicamError → String
  | .genericException d => d
  | .runtimeException m => m

/-! ## ROI data model

A genicam integer feature node, as used for `Width`, `Height`,
`OffsetX`, `OffsetY`: a current value plus the device-reported
minimum, maximum and writability (`genicam.IsWritable`). -/

/-- One integer feature node of the camera (value, reported Min / Max,
reported writability). -/
structure RoiField where
  val : Nat
  min : Nat
  max : Nat
  writable : Bool
  deriving DecidableEq, Repr

/-- The mutable camera feature state touched by the ROI functions:
`camera.Width`, `camera.Height`, `camera.OffsetX`, `camera.OffsetY`. -/
structure CameraState where
  width : RoiField
  height : RoiField
  offsetX : RoiField
  offsetY : RoiField
  deriving DecidableEq, Repr

/-- One field assignment performed on the camera
(`camera.Width = v`, `camera.OffsetX = v`, ...). -/
inductive RoiEvent where
  | setWidth (v : Nat)
  | setHeight (v : Nat)
  | setOffsetX (v : Nat)
  | setOffsetY (v : Nat)
  deriving DecidableEq, Repr

/-- Whether an event mutates an offset field. -/
def RoiEvent.isOffset : RoiEvent → Bool
  | .setOffsetX _ => true
  | .setOffsetY _ => true
  | _ => false

/-- Whether an event mutates width or height. -/
def RoiEvent.isDim : RoiEvent → Bool
  | .setWidth _ => true
  | .setHeight _ => true
  | _ => false

/-- Effect of a successful field assignment on the camera state.  Only
the assigned field value changes; reported Min/Max/writability of every
node are whatever the device reports and are left untouched by the
assignment itself. -/
def applyEvent (cam : CameraState) : RoiEvent → CameraState
  | .setWidth v => { cam with width := { cam.width with val := v } }
  | .setHeight v => { cam with height := { cam.height with val := v } }
  | .setOffsetX v => { cam with offsetX := { cam.offsetX with val := v } }
  | .setOffsetY v => { cam with offsetY := { cam.offsetY with val := v } }

/-- Device behaviour for field writes: `rej s ev = true` means the
device rejects assignment `ev` in state `s` (out-of-range, misaligned,
locked, ...) by raising `genicam.GenericException`. -/
def RejectOracle : Type := CameraState → RoiEvent → Bool

deriving instance DecidableEq for Except

/-- Result of running one of the ROI functions: the field assignments
actually performed, in order, and the Python-level outcome (returned
camera or raised exception). -/
structure RoiRun where
  events : List RoiEvent
  outcome : Except GenicamError CameraState
  deriving DecidableEq, Repr

/-- The message of the `genicam.RuntimeException` raised by `change_ROI`
and `max_ROI` when a field write is rejected. -/
def cfgErrorMsg : String :=
  "Could not apply configuration. GenICam GenericException caught in OnOpened method"

/-- A run that raised `genicam.RuntimeException` after performing `evs`. -/
def roiFail (evs : List RoiEvent) : RoiRun :=
  { events := evs, outcome := .error (.runtimeException cfgErrorMsg) }

/-- A run that returned the camera normally after performing `evs`. -/
def roiDone (c : CameraState) (evs : List RoiEvent) : RoiRun :=
  { events := evs, outcome := .ok c }

/-! ### change_ROI

```python
try:
    camera.Width = dimensions[0]
    camera.Height = dimensions[1]
    if genicam.IsWritable(camera.OffsetX):
        camera.OffsetX = offsets[0]
    if genicam.IsWritable(camera.OffsetY):
        camera.OffsetY = offsets[1]
except genicam.GenericException as e:
    raise genicam.RuntimeException(...)
return camera
```
-/

/-- Tail of `change_ROI`: the guarded `OffsetY` assignment, then return. -/
def changeOffsetY (rej : RejectOracle) (y : Nat) (evs : List RoiEvent)
    (c : CameraState) : RoiRun :=
  if c.offsetY.writable then
    if rej c (.setOffsetY y) then roiFail evs
    else roiDone (applyEvent c (.setOffsetY y)) (evs ++ [.setOffsetY y])
  else roiDone c evs

/-- Middle of `change_ROI`: the guarded `OffsetX` assignment. -/
def changeOffsetX (rej : RejectOracle) (x y : Nat) (evs : List RoiEvent)
    (c : CameraState) : RoiRun :=
  if c.offsetX.writable then
    if rej c (.setOffsetX x) then roiFail evs
    else changeOffsetY rej y (evs ++ [.setOffsetX x]) (applyEvent c (.setOffsetX x))
  else changeOffsetY rej y evs c

/-- Embedding of `change_ROI(camera, dimensions, offsets)`.  Width and
height are assigned unconditionally; each offset is assigned only when
the device reports it writable; any rejected assignment aborts the
sequence and raises `genicam.RuntimeException`. -/
def change_ROI (rej : RejectOracle) (cam : CameraState)
    (dimensions offs : Nat × Nat) : RoiRun :=
  if rej cam (.setWidth dimensions.1) then roiFail []
  else
    let c1 := applyEvent cam (.setWidth dimensions.1)
    if rej c1 (.setHeight dimensions.2) then roiFail [.setWidth dimensions.1]
    else
      changeOffsetX rej offs.1 offs.2
        [.setWidth dimensions.1, .setHeight dimensions.2]
        (applyEvent c1 (.setHeight dimensions.2))

/-! ### max_ROI

```python
try:
    if genicam.IsWritable(camera.OffsetX):
        camera.OffsetX = camera.OffsetX.Min
    if genicam.IsWritable(camera.OffsetY):
        camera.OffsetY = camera.OffsetY.Min
    camera.Width = camera.Width.Max
    camera.Height = camera.Height.Max
except genicam.GenericException as e:
    raise genicam.RuntimeException(...)
return camera
```
-/

/-- Tail of `max_ROI`: the unconditional `Width = Width.Max` and
`Height = Height.Max` assignments, then return. -/
def maxDims (rej : RejectOracle) (evs : List RoiEvent) (c : CameraState) : RoiRun :=
  if rej c (.setWidth c.width.max) then roiFail evs
  else
    let c1 := applyEvent c (.setWidth c.width.max)
    let evs1 := evs ++ [RoiEvent.setWidth c.width.max]
    if rej c1 (.setHeight c1.height.max) then roiFail evs1
    else roiDone (applyEvent c1 (.setHeight c1.height.max))
      (evs1 ++ [RoiEvent.setHeight c1.height.max])

/-- Middle of `max_ROI`: the guarded `OffsetY = OffsetY.Min` assignment. -/
def maxOffsetY (rej : RejectOracle) (evs : List RoiEvent) (c : CameraState) : RoiRun :=
  if c.offsetY.writable then
    if rej c (.setOffsetY c.offsetY.min) then roiFail evs
    else maxDims rej (evs ++ [.setOffsetY c.offsetY.min])
      (applyEvent c (.setOffsetY c.offsetY.min))
  else maxDims rej evs c

/-- Embedding of `max_ROI(camera)`: offsets are set to their reported
minimum (each only when writable), then width and height are set to
their reported maximum; any rejected assignment aborts the sequence and
raises `genicam.RuntimeException`. -/
def max_ROI (rej : RejectOracle) (cam : CameraState) : RoiRun :=
  if cam.offsetX.writable then
    if rej cam (.setOffsetX cam.offsetX.min) then roiFail []
    else maxOffsetY rej [.setOffsetX cam.offsetX.min]
      (applyEvent cam (.setOffsetX cam.offsetX.min))
  else maxOffsetY rej [] cam

/-! ### Acceptance of a whole ROI run

The following predicates say that the device accepts every field
assignment attempted during a run of `change_ROI` / `max_ROI`.  They
follow the functions themselves step for step — same writes, same
intermediate states, same writability guards — so `... = false` holds
exactly when the device rejects one of the assignments the run
attempts (at whichever position), i.e. when a
`genicam.GenericException` is raised inside the try block. -/

/-- The device accepts the guarded `OffsetY` write of `change_ROI`
attempted in state `c` (vacuously true when not writable). -/
def changeOffsetYAccepted (rej : RejectOracle) (y : Nat) (c : CameraState) : Bool :=
  if c.offsetY.writable then !rej c (.setOffsetY y) else true

/-- The device accepts the guarded `OffsetX` write of `change_ROI`
attempted in state `c` and the `OffsetY` write attempted after it. -/
def changeOffsetXAccepted (rej : RejectOracle) (x y : Nat) (c : CameraState) : Bool :=
  if c.offsetX.writable then
    !rej c (.setOffsetX x)
      && changeOffsetYAccepted rej y (applyEvent c (.setOffsetX x))
  else changeOffsetYAccepted rej y c

/-- The device accepts every field assignment attempted during
`change_ROI rej cam dimensions offs`. -/
def changeROIAccepted (rej : RejectOracle) (cam : CameraState)
    (dimensions offs : Nat × Nat) : Bool :=
  !rej cam (.setWidth dimensions.1)
    && (let c1 := applyEvent cam (.setWidth dimensions.1)
        !rej c1 (.setHeight dimensions.2)
          && changeOffsetXAccepted rej offs.1 offs.2
              (applyEvent c1 (.setHeight dimensions.2)))

/-- The device accepts the `Width := Max` and `Height := Max` writes of
`max_ROI` attempted from state `c`. -/
def maxDimsAccepted (rej : RejectOracle) (c : CameraState) : Bool :=
  !rej c (.setWidth c.width.max)
    && (let c1 := applyEvent c (.setWidth c.width.max)
        !rej c1 (.setHeight c1.height.max))

/-- The device accepts the guarded `OffsetY := Min` write of `max_ROI`
attempted in state `c` and the width/height writes after it. -/
def maxOffsetYAccepted (rej : RejectOracle) (c : CameraState) : Bool :=
  if c.offsetY.writable then
    !rej c (.setOffsetY c.offsetY.min)
      && maxDimsAccepted rej (applyEvent c (.setOffsetY c.offsetY.min))
  else maxDimsAccepted rej c

/-- The device accepts every field assignment attempted during
`max_ROI rej cam`. -/
def maxROIAccepted (rej : RejectOracle) (cam : CameraState) : Bool :=
  if cam.offsetX.writable then
    !rej cam (.setOffsetX cam.offsetX.min)
      && maxOffsetYAccepted rej (applyEvent cam (.setOffsetX cam.offsetX.min))
  else maxOffsetYAccepted rej cam

/-! ## Single-frame capture data model -/

/-- A grab result as delivered by `camera.RetrieveResult`: the
success/failure indicator plus, on failure, its error code and
description.  The raw pixel payload is not modelled here; conversion
consumes the whole grab result (see `CaptureEnv.convert`). -/
structure GrabResult where
  succeeded : Bool
  errorCode : Nat
  errorDescription : String
  deriving DecidableEq, Repr

/-- A decoded pixel array (`image.GetArray()` in the Python code):
row-major interleaved data with its dimensions. -/
structure PixArray where
  rows : Nat
  cols : Nat
  data : List Nat
  deriving DecidableEq, Repr

/-- Python-level errors that `take_one_opencv_image` can let escape.
`unboundLocalError n` models CPython raising UnboundLocalError when a
`return` statement references local variable `n` that was never
assigned on the executed path. -/
inductive PyError where
  | unboundLocalError (name : String)
  deriving DecidableEq, Repr

/-- SDK behaviour seen by `take_one_opencv_image`:
`retrieve t` is the outcome of `camera.RetrieveResult(t,
TimeoutHandling_ThrowException)` (a grab result, or a raised
genicam exception, which is also how a timeout surfaces), and
`convert r` is the outcome of `converter.Convert(r)` followed by
`GetArray()` (a pixel array, or a raised genicam exception). -/
structure CaptureEnv where
  retrieve : Nat → Except GenicamError GrabResult
  convert : GrabResult → Except GenicamError PixArray

/-- Observable outcome of one `take_one_opencv_image` call:
the timeout passed to `RetrieveResult`, everything printed, how many
times `Release()` was called on the obtained grab result, and the
Python result — `.ok (some a)` for `return img` with `img = a`,
`.ok none` for the bare `return` in the except block, `.error` for an
escaping Python exception. -/
structure CaptureRun where
  timeoutArg : Nat
  printed : List String
  releases : Nat
  result : Except PyError (Option PixArray)
  deriving DecidableEq, Repr

/-- Embedding of `take_one_opencv_image(camera, converter)`:

```python
try:
    grabResult = camera.RetrieveResult(5000, pylon.TimeoutHandling_ThrowException)
    if grabResult.GrabSucceeded():
        image = converter.Convert(grabResult)
        img = image.GetArray()
    else:
        print("Error: ", grabResult.ErrorCode, grabResult.ErrorDescription)
    grabResult.Release()
except genicam.GenericException as e:
    print("An exception occurred.")
    print(e.GetDescription())
    return

return img
```

A genicam exception raised by `Convert` jumps straight to the except
block, skipping the `grabResult.Release()` line; on the
grab-failure branch `img` was never assigned, so the final
`return img` raises UnboundLocalError. -/
def take_one_opencv_image (env : CaptureEnv) : CaptureRun :=
  match env.retrieve 5000 with
  | .error e =>
    { timeoutArg := 5000
      printed := ["An exception occurred.", e.desc]
      releases := 0
      result := .ok none }
  | .ok grabResult =>
    if grabResult.succeeded then
      match env.convert grabResult with
      | .error e =>
        { timeoutArg := 5000
          printed := ["An exception occurred.", e.desc]
          releases := 0
          result := .ok none }
      | .ok img =>
        { timeoutArg := 5000
          printed := []
          releases := 1
          result := .ok (some img) }
    else
      { timeoutArg := 5000
        printed := ["Error: " ++ toString grabResult.errorCode ++ " "
          ++ grabResult.errorDescription]
        releases := 1
        result := .error (.unboundLocalError "img") }

/-! ## capture_and_save_png -/

/-- One externally visible action of `capture_and_save_png`. -/
inductive SaveEvent where
  | retrieveCall (timeout : Nat)
  | attachBuffer
  | savePng (filename : String)
  | imageRelease
  | bufferRelease
  deriving DecidableEq, Repr

/-- SDK behaviour seen by `capture_and_save_png`: the outcome of
`camera.RetrieveResult(t)` and of `img.Save(ImageFileFormat_Png,
filename)` on an attached grab result. -/
structure SaveEnv where
  retrieve : Nat → Except GenicamError GrabResult
  save : GrabResult → String → Except GenicamError Unit

/-- Observable outcome of one `capture_and_save_png` call: the actions
performed in order, and either a normal `return` or an escaping
genicam exception. -/
structure SaveRun where
  events : List SaveEvent
  outcome : Except GenicamError Unit
  deriving DecidableEq, Repr

/-- Embedding of `capture_and_save_png(camera, filename)`:

```python
img = pylon.PylonImage()
with camera.RetrieveResult(5000) as result:
    img.AttachGrabResultBuffer(result)
    img.Save(pylon.ImageFileFormat_Png, filename)
    img.Release()
return
```

There is no success check and no exception handler.  The `with` block
releases the grab result buffer on exit, also when `Save` raises; a
raised exception then propagates to the caller.  If `RetrieveResult`
itself raises (e.g. timeout), the `with` block is never entered. -/
def capture_and_save_png (env : SaveEnv) (filename : String) : SaveRun :=
  match env.retrieve 5000 with
  | .error e => { events := [.retrieveCall 5000], outcome := .error e }
  | .ok result =>
    match env.save result filename with
    | .error e =>
      { events := [.retrieveCall 5000, .attachBuffer, .bufferRelease]
        outcome := .error e }
    | .ok _ =>
      { events := [.retrieveCall 5000, .attachBuffer, .savePng filename,
          .imageRelease, .bufferRelease]
        outcome := .ok () }

/-! ## create_simple_camera -/

/-- The device information of an enumerated camera device. -/
structure DeviceInfo where
  modelName : String
  deriving DecidableEq, Repr

/-- One externally visible action of `create_simple_camera`. -/
inductive SessionEvent where
  | createFirstDevice
  | openDevice
  | loadConfig (path : String)
  deriving DecidableEq, Repr

/-- SDK behaviour seen by `create_simple_camera`: device enumeration
(`TlFactory.GetInstance().CreateFirstDevice()`, raising when no device
is attached), `camera.Open()`, and
`FeaturePersistence.Load(path, nodeMap, True)` (raising when the blob
cannot be parsed or applied). -/
structure SessionEnv where
  firstDevice : Except GenicamError DeviceInfo
  openDevice : DeviceInfo → Except GenicamError Unit
  loadConfig : String → Except GenicamError Unit

/-- Observable outcome of one `create_simple_camera` call: the actions
performed in order, and either the returned camera or an escaping
exception. -/
structure SessionRun where
  events : List SessionEvent
  outcome : Except GenicamError DeviceInfo
  deriving DecidableEq, Repr

/-- Embedding of `create_simple_camera(config_file_dir)`:

```python
camera = pylon.InstantCamera(pylon.TlFactory.GetInstance().CreateFirstDevice())
print("Using device ", camera.GetDeviceInfo().GetModelName())
camera.Open()
pylon.FeaturePersistence.Load(config_file_dir, camera.GetNodeMap(), True)
return camera
```

There is no exception handler: a failure at any step propagates. -/
def create_simple_camera (env : SessionEnv) (config_file_dir : String) : SessionRun :=
  match env.firstDevice with
  | .error e => { events := [], outcome := .error e }
  | .ok dev =>
    match env.openDevice dev with
    | .error e => { events := [.createFirstDevice], outcome := .error e }
    | .ok _ =>
      match env.loadConfig config_file_dir with
      | .error e =>
        { events := [.createFirstDevice, .openDevice], outcome := .error e }
      | .ok _ =>
        { events := [.createFirstDevice, .openDevice, .loadConfig config_file_dir]
          outcome := .ok dev }

/-! ## Concrete fixtures

Concrete devices / SDK environments used to exhibit counterexamples and
to instantiate the proved theorems on closed inputs. -/

/-- A device that accepts every field write. -/
def rejNone : RejectOracle := fun _ _ => false

/-- A device that rejects every field write. -/
def rejAll : RejectOracle := fun _ _ => true

/-- A camera state with a writable `OffsetX` and a locked (non-writable)
`OffsetY` whose current value 6 differs from its reported minimum 0. -/
def camA : CameraState :=
  { width := { val := 640, min := 16, max := 1280, writable := true }
    height := { val := 480, min := 16, max := 1024, writable := true }
    offsetX := { val := 4, min := 0, max := 512, writable := true }
    offsetY := { val := 6, min := 0, max := 256, writable := false } }

/-- The camera state produced by `change_ROI rejNone camA (64, 48) (2, 3)`. -/
def camA_rot : CameraState :=
  { width := { val := 64, min := 16, max := 1280, writable := true }
    height := { val := 48, min := 16, max := 1024, writable := true }
    offsetX := { val := 2, min := 0, max := 512, writable := true }
    offsetY := { val := 6, min := 0, max := 256, writable := false } }

/-- The camera state produced by `max_ROI rejNone camA`. -/
def camA_max : CameraState :=
  { width := { val := 1280, min := 16, max := 1280, writable := true }
    height := { val := 1024, min := 16, max := 1024, writable := true }
    offsetX := { val := 0, min := 0, max := 512, writable := true }
    offsetY := { val := 6, min := 0, max := 256, writable := false } }

/-- A successful grab result. -/
def grabOk : GrabResult :=
  { succeeded := true, errorCode := 0, errorDescription := "" }

/-- A failed grab result with a device error code and description. -/
def grabBad : GrabResult :=
  { succeeded := false, errorCode := 42, errorDescription := "grab failed" }

/-- A concrete converted pixel array. -/
def pixA : PixArray := { rows := 480, cols := 640, data := [1, 2, 3] }

/-- Capture environment: the grab succeeds and conversion succeeds. -/
def envOkGrab : CaptureEnv :=
  { retrieve := fun _ => .ok grabOk, convert := fun _ => .ok pixA }

/-- Capture environment: the grab succeeds but `Convert` raises a
genicam exception. -/
def envConvertFails : CaptureEnv :=
  { retrieve := fun _ => .ok grabOk
    convert := fun _ => .error (.genericException "conversion failed") }

/-- Capture environment: the grab result reports failure. -/
def envGrabFail : CaptureEnv :=
  { retrieve := fun _ => .ok grabBad, convert := fun _ => .ok pixA }

/-- Capture environment: `RetrieveResult` itself raises (e.g. timeout). -/
def envRetrieveErr : CaptureEnv :=
  { retrieve := fun _ => .error (.genericException "device timeout")
    convert := fun _ => .ok pixA }

/-- Save environment: retrieval delivers a failed grab result and
saving succeeds. -/
def senvOk : SaveEnv :=
  { retrieve := fun _ => .ok grabBad, save := fun _ _ => .ok () }

/-- Save environment: retrieval raises. -/
def senvRetrieveErr : SaveEnv :=
  { retrieve := fun _ => .error (.genericException "device timeout")
    save := fun _ _ => .ok () }

/-- Save environment: retrieval succeeds but saving raises. -/
def senvSaveErr : SaveEnv :=
  { retrieve := fun _ => .ok grabBad
    save := fun _ _ => .error (.genericException "write failed") }

/-- A concrete attached device. -/
def devA : DeviceInfo := { modelName := "acA1920" }

/-- Session environment: one device attached, everything succeeds. -/
def sessOk : SessionEnv :=
  { firstDevice := .ok devA
    openDevice := fun _ => .ok ()
    loadConfig := fun _ => .ok () }

/-- Session environment: no device attached. -/
def sessNoDevice : SessionEnv :=
  { firstDevice := .error (.runtimeException "no device is available")
    openDevice := fun _ => .ok ()
    loadConfig := fun _ => .ok () }

/-- Session environment: device present but the configuration blob
cannot be applied. -/
def sessBadBlob : SessionEnv :=
  { firstDevice := .ok devA
    openDevice := fun _ => .ok ()
    loadConfig := fun _ => .error (.genericException "bad node map file") }

/-! ## Helper lemmas -/

/-- A list of width/height events contains no `setOffsetX` event. -/
theorem not_setOffsetX_mem_of_all_isDim {l : List RoiEvent}
    (h : l.all RoiEvent.isDim = true) (v : Nat) : RoiEvent.setOffsetX v ∉ l := by
  intro hm
  have := List.all_eq_true.mp h _ hm
  simp [RoiEvent.isDim] at this

/-- A list of width/height events contains no `setOffsetY` event. -/
theorem not_setOffsetY_mem_of_all_isDim {l : List RoiEvent}
    (h : l.all RoiEvent.isDim = true) (v : Nat) : RoiEvent.setOffsetY v ∉ l := by
  intro hm
  have := List.all_eq_true.mp h _ hm
  simp [RoiEvent.isDim] at this

/-- `maxDims` appends only width/height events after the events already
performed, and those are `Width := Width.Max` then `Height := Height.Max`
of the state it was entered with. -/
theorem maxDims_events (rej : RejectOracle) (evs : List RoiEvent) (c : CameraState) :
    ∃ tail, (maxDims rej evs c).events = evs ++ tail
      ∧ tail.all RoiEvent.isDim = true := by
  by_cases h1 : rej c (.setWidth c.width.max)
  · exact ⟨[], by simp [maxDims, roiFail, h1], rfl⟩
  · by_cases h2 : rej (applyEvent c (.setWidth c.width.max))
        (.setHeight (applyEvent c (.setWidth c.width.max)).height.max)
    · exact ⟨[.setWidth c.width.max], by simp [maxDims, roiFail, h1, h2], rfl⟩
    · exact ⟨[.setWidth c.width.max,
        .setHeight (applyEvent c (.setWidth c.width.max)).height.max],
        by simp [maxDims, roiDone, h1, h2], rfl⟩

/-- `maxOffsetY` appends an optional `OffsetY := OffsetY.Min` event and
then only width/height events. -/
theorem maxOffsetY_events (rej : RejectOracle) (evs : List RoiEvent) (c : CameraState) :
    ∃ mid tail, (maxOffsetY rej evs c).events = (evs ++ mid) ++ tail
      ∧ mid.all RoiEvent.isOffset = true
      ∧ tail.all RoiEvent.isDim = true
      ∧ (∀ v, RoiEvent.setOffsetX v ∈ mid → False)
      ∧ (∀ v, RoiEvent.setOffsetY v ∈ mid → v = c.offsetY.min) := by
  by_cases hw : c.offsetY.writable
  · by_cases h1 : rej c (.setOffsetY c.offsetY.min)
    · refine ⟨[], [], ?_, rfl, rfl, by simp, by simp⟩
      simp [maxOffsetY, roiFail, hw, h1]
    · obtain ⟨tail, ht, hdim⟩ :=
        maxDims_events rej (evs ++ [.setOffsetY c.offsetY.min])
          (applyEvent c (.setOffsetY c.offsetY.min))
      refine ⟨[.setOffsetY c.offsetY.min], tail, ?_, rfl, hdim, by simp, by simp⟩
      simp only [maxOffsetY, hw, h1, if_true, if_false]
      simpa using ht
  · obtain ⟨tail, ht, hdim⟩ := maxDims_events rej evs c
    refine ⟨[], tail, ?_, rfl, hdim, by simp, by simp⟩
    simp only [maxOffsetY, hw]
    simpa using ht

/-- Event-trace characterization of `max_ROI`: the performed
assignments are an optional `OffsetX := Min` and optional
`OffsetY := Min` (offset events, with the device-reported minima of the
initial state), followed only by width/height events. -/
theorem max_ROI_events (rej : RejectOracle) (cam : CameraState) :
    ∃ pre post, (max_ROI rej cam).events = pre ++ post
      ∧ pre.all RoiEvent.isOffset = true
      ∧ post.all RoiEvent.isDim = true
      ∧ (∀ v, RoiEvent.setOffsetX v ∈ (max_ROI rej cam).events → v = cam.offsetX.min)
      ∧ (∀ v, RoiEvent.setOffsetY v ∈ (max_ROI rej cam).events → v = cam.offsetY.min) := by
  by_cases hw : cam.offsetX.writable
  · by_cases h1 : rej cam (.setOffsetX cam.offsetX.min)
    · refine ⟨[], [], ?_, rfl, rfl, ?_, ?_⟩ <;>
        simp [max_ROI, roiFail, hw, h1]
    · obtain ⟨mid, tail, ht, hoff, hdim, hx, hy⟩ :=
        maxOffsetY_events rej [.setOffsetX cam.offsetX.min]
          (applyEvent cam (.setOffsetX cam.offsetX.min))
      have hev : (max_ROI rej cam).events =
          ([RoiEvent.setOffsetX cam.offsetX.min] ++ mid) ++ tail := by
        simp only [max_ROI, hw, h1, if_true, if_false]
        exact ht
      refine ⟨[RoiEvent.setOffsetX cam.offsetX.min] ++ mid, tail, hev, ?_, hdim, ?_, ?_⟩
      · simp only [List.all_append, Bool.and_eq_true]
        exact ⟨by simp [RoiEvent.isOffset], hoff⟩
      · intro v hv
        rw [hev] at hv
        rcases List.mem_append.mp hv with hv | hv
        · rcases List.mem_append.mp hv with hv | hv
          · simp at hv
            exact hv.symm ▸ rfl
          · exact absurd hv (fun hv => hx v hv)
        · exact absurd hv (not_setOffsetX_mem_of_all_isDim hdim v)
      · intro v hv
        rw [hev] at hv
        rcases List.mem_append.mp hv with hv | hv
        · rcases List.mem_append.mp hv with hv | hv
          · simp at hv
          · have := hy v hv
            simpa [applyEvent] using this
        · exact absurd hv (not_setOffsetY_mem_of_all_isDim hdim v)
  · obtain ⟨mid, tail, ht, hoff, hdim, hx, hy⟩ := maxOffsetY_events rej [] cam
    have hev : (max_ROI rej cam).events = mid ++ tail := by
      simp only [max_ROI, hw, if_false]
      simpa using ht
    refine ⟨mid, tail, hev, hoff, hdim, ?_, ?_⟩
    · intro v hv
      rw [hev] at hv
      rcases List.mem_append.mp hv with hv | hv
      · exact absurd hv (fun hv => hx v hv)
      · exact absurd hv (not_setOffsetX_mem_of_all_isDim hdim v)
    · intro v hv
      rw [hev] at hv
      rcases List.mem_append.mp hv with hv | hv
      · exact hy v hv
      · exact absurd hv (not_setOffsetY_mem_of_all_isDim hdim v)

/-- Claim C3, amended: after a successful `max_ROI` each offset field
ends at its device-reported minimum when the device reports it
writable, and is left unchanged when not writable; width and height
always end at their device-reported maximum.  (The claim as frozen —
offsets always end at their minimum regardless of prior state — fails
for a non-writable offset, see the counterexample.) -/
theorem max_ROI_final (rej : RejectOracle) (cam : CameraState) (c' : CameraState)
    (h : (max_ROI rej cam).outcome = .ok c') :
    (cam.offsetX.writable = true → c'.offsetX.val = cam.offsetX.min)
    ∧ (cam.offsetX.writable = false → c'.offsetX.val = cam.offsetX.val)
    ∧ (cam.offsetY.writable = true → c'.offsetY.val = cam.offsetY.min)
    ∧ (cam.offsetY.writable = false → c'.offsetY.val = cam.offsetY.val)
    ∧ c'.width.val = cam.width.max
    ∧ c'.height.val = cam.height.max := by
  simp only [max_ROI, maxOffsetY, maxDims, roiFail, roiDone, applyEvent] at h
  repeat' (split at h)
  all_goals simp_all
  all_goals (rw [← h]; simp)

/-- Claim C4: in every successful `change_ROI` run the performed
assignments are exactly width, then height, then each offset field the
device reports writable, in that order — width and height are assigned
unconditionally and before any offset — and a non-writable offset
field keeps its previous value. -/
theorem change_ROI_run (rej : RejectOracle) (cam : CameraState) (d o : Nat × Nat)
    (c' : CameraState) (h : (change_ROI rej cam d o).outcome = .ok c') :
    (change_ROI rej cam d o).events =
      [RoiEvent.setWidth d.1, RoiEvent.setHeight d.2]
        ++ (if cam.offsetX.writable then [RoiEvent.setOffsetX o.1] else [])
        ++ (if cam.offsetY.writable then [RoiEvent.setOffsetY o.2] else [])
    ∧ (cam.offsetX.writable = false → c'.offsetX.val = cam.offsetX.val)
    ∧ (cam.offsetY.writable = false → c'.offsetY.val = cam.offsetY.val) := by
  simp only [change_ROI, changeOffsetX, changeOffsetY, roiFail, roiDone, applyEvent] at h ⊢
  repeat' (split at h)
  all_goals simp_all
  all_goals (rw [← h]; try simp)

/-- Counterexample to claim C3 as frozen: on `camA`, whose `OffsetY` is
not writable and currently 6, `max_ROI` returns successfully with
`OffsetY` still 6, not its reported minimum 0. -/
theorem max_ROI_nonwritable_offset_cex :
    ((max_ROI rejNone camA).outcome.map fun c => c.offsetY.val) = Except.ok 6
    ∧ camA.offsetY.min = 0 := by decide

/-- Witness for `max_ROI_final` at the concrete device `camA`. -/
theorem max_ROI_final_witness :
    camA_max.offsetX.val = camA.offsetX.min
    ∧ camA_max.offsetY.val = camA.offsetY.val
    ∧ camA_max.width.val = camA.width.max
    ∧ camA_max.height.val = camA.height.max := by
  have h := max_ROI_final rejNone camA camA_max (by decide)
  exact ⟨h.1 rfl, h.2.2.2.1 rfl, h.2.2.2.2.1, h.2.2.2.2.2⟩

/-- Witness for `change_ROI_run` at the concrete device `camA`. -/
theorem change_ROI_run_witness :
    (change_ROI rejNone camA (64, 48) (2, 3)).events =
      [RoiEvent.setWidth 64, RoiEvent.setHeight 48, RoiEvent.setOffsetX 2]
    ∧ camA_rot.offsetY.val = camA.offsetY.val := by
  have h := change_ROI_run rejNone camA (64, 48) (2, 3) camA_rot (by decide)
  exact ⟨by simpa [camA] using h.1, h.2.2 rfl⟩

/-- Every error raised by `change_ROI` is the configuration
`genicam.RuntimeException`. -/
theorem change_ROI_error (rej : RejectOracle) (cam : CameraState) (d o : Nat × Nat)
    (e : GenicamError) (h : (change_ROI rej cam d o).outcome = .error e) :
    e = .runtimeException cfgErrorMsg := by
  simp only [change_ROI, changeOffsetX, changeOffsetY, roiFail, roiDone, applyEvent] at h
  repeat' (split at h)
  all_goals simp_all

/-- Every error raised by `max_ROI` is the configuration
`genicam.RuntimeException`. -/
theorem max_ROI_error (rej : RejectOracle) (cam : CameraState)
    (e : GenicamError) (h : (max_ROI rej cam).outcome = .error e) :
    e = .runtimeException cfgErrorMsg := by
  simp only [max_ROI, maxOffsetY, maxDims, roiFail, roiDone, applyEvent] at h
  repeat' (split at h)
  all_goals simp_all

/-- Claim C6: during every `max_ROI` execution all offset mutations
precede any width/height mutation, and — assuming the device reports an
offset minimum no larger than the current offset and the initial state
is within the sensor bounds — every offset mutation writes a value that,
combined with the width/height current at that moment (which, by the
ordering part, are still the initial ones), stays within the bounds. -/
theorem max_ROI_offsets_before_dims (rej : RejectOracle) (cam : CameraState)
    (sW sH : Nat)
    (hxm : cam.offsetX.min ≤ cam.offsetX.val) (hym : cam.offsetY.min ≤ cam.offsetY.val)
    (hxb : cam.offsetX.val + cam.width.val ≤ sW)
    (hyb : cam.offsetY.val + cam.height.val ≤ sH) :
    (∃ pre post, (max_ROI rej cam).events = pre ++ post
      ∧ pre.all RoiEvent.isOffset = true ∧ post.all RoiEvent.isDim = true)
    ∧ (∀ v, RoiEvent.setOffsetX v ∈ (max_ROI rej cam).events → v + cam.width.val ≤ sW)
    ∧ (∀ v, RoiEvent.setOffsetY v ∈ (max_ROI rej cam).events → v + cam.height.val ≤ sH) := by
  obtain ⟨pre, post, hev, hoff, hdim, hx, hy⟩ := max_ROI_events rej cam
  refine ⟨⟨pre, post, hev, hoff, hdim⟩, ?_, ?_⟩
  · intro v hv
    rcases hx v hv with rfl
    exact le_trans (Nat.add_le_add_right hxm _) hxb
  · intro v hv
    rcases hy v hv with rfl
    exact le_trans (Nat.add_le_add_right hym _) hyb

/-- Witness for `max_ROI_offsets_before_dims` at the concrete device
`camA` with sensor bounds 2000 x 2000. -/
theorem max_ROI_offsets_before_dims_witness :
    (max_ROI rejNone camA).events =
      [RoiEvent.setOffsetX 0, RoiEvent.setWidth 1280, RoiEvent.setHeight 1024]
    ∧ 0 + camA.width.val ≤ 2000 := by
  have h := max_ROI_offsets_before_dims rejNone camA 2000 2000
    (by decide) (by decide) (by decide) (by decide)
  exact ⟨by decide, h.2.1 0 (by decide)⟩

/-- `changeOffsetY` fails with the configuration error exactly when
its attempted write is rejected, and returns normally otherwise. -/
theorem changeOffsetY_accept_iff (rej : RejectOracle) (y : Nat)
    (evs : List RoiEvent) (c : CameraState) :
    (changeOffsetYAccepted rej y c = false →
      (changeOffsetY rej y evs c).outcome = .error (.runtimeException cfgErrorMsg))
    ∧ (changeOffsetYAccepted rej y c = true →
      ∃ c', (changeOffsetY rej y evs c).outcome = .ok c') := by
  by_cases hw : c.offsetY.writable = true <;>
    by_cases hr : rej c (.setOffsetY y) = true <;>
      simp [changeOffsetY, changeOffsetYAccepted, roiFail, roiDone, hw, hr]

/-- `changeOffsetX` fails with the configuration error exactly when one
of its attempted writes is rejected, and returns normally otherwise. -/
theorem changeOffsetX_accept_iff (rej : RejectOracle) (x y : Nat)
    (evs : List RoiEvent) (c : CameraState) :
    (changeOffsetXAccepted rej x y c = false →
      (changeOffsetX rej x y evs c).outcome = .error (.runtimeException cfgErrorMsg))
    ∧ (changeOffsetXAccepted rej x y c = true →
      ∃ c', (changeOffsetX rej x y evs c).outcome = .ok c') := by
  by_cases hw : c.offsetX.writable = true
  · by_cases hr : rej c (.setOffsetX x) = true
    · simp [changeOffsetX, changeOffsetXAccepted, roiFail, hw, hr]
    · have h := changeOffsetY_accept_iff rej y (evs ++ [.setOffsetX x])
        (applyEvent c (.setOffsetX x))
      simpa [changeOffsetX, changeOffsetXAccepted, hw, hr] using h
  · have h := changeOffsetY_accept_iff rej y evs c
    simpa [changeOffsetX, changeOffsetXAccepted, hw] using h

/-- `change_ROI` fails with the configuration error exactly when the
device rejects one of the writes it attempts, at whichever position,
and returns normally when all attempted writes are accepted. -/
theorem change_ROI_accept_iff (rej : RejectOracle) (cam : CameraState) (d o : Nat × Nat) :
    (changeROIAccepted rej cam d o = false →
      (change_ROI rej cam d o).outcome = .error (.runtimeException cfgErrorMsg))
    ∧ (changeROIAccepted rej cam d o = true →
      ∃ c', (change_ROI rej cam d o).outcome = .ok c') := by
  by_cases h1 : rej cam (.setWidth d.1) = true
  · simp [change_ROI, changeROIAccepted, roiFail, h1]
  · by_cases h2 : rej (applyEvent cam (.setWidth d.1)) (.setHeight d.2) = true
    · simp [change_ROI, changeROIAccepted, roiFail, h1, h2]
    · have h := changeOffsetX_accept_iff rej o.1 o.2
        [.setWidth d.1, .setHeight d.2]
        (applyEvent (applyEvent cam (.setWidth d.1)) (.setHeight d.2))
      simpa [change_ROI, changeROIAccepted, h1, h2] using h

/-- `maxDims` fails with the configuration error exactly when one of
its two attempted writes is rejected, and returns normally otherwise. -/
theorem maxDims_accept_iff (rej : RejectOracle) (evs : List RoiEvent) (c : CameraState) :
    (maxDimsAccepted rej c = false →
      (maxDims rej evs c).outcome = .error (.runtimeException cfgErrorMsg))
    ∧ (maxDimsAccepted rej c = true →
      ∃ c', (maxDims rej evs c).outcome = .ok c') := by
  by_cases h1 : rej c (.setWidth c.width.max) = true
  · simp [maxDims, maxDimsAccepted, roiFail, h1]
  · by_cases h2 : rej (applyEvent c (.setWidth c.width.max))
        (.setHeight (applyEvent c (.setWidth c.width.max)).height.max) = true
    · simp [maxDims, maxDimsAccepted, roiFail, h1, h2]
    · simp [maxDims, maxDimsAccepted, roiDone, h1, h2]

/-- `maxOffsetY` fails with the configuration error exactly when one of
its attempted writes is rejected, and returns normally otherwise. -/
theorem maxOffsetY_accept_iff (rej : RejectOracle) (evs : List RoiEvent) (c : CameraState) :
    (maxOffsetYAccepted rej c = false →
      (maxOffsetY rej evs c).outcome = .error (.runtimeException cfgErrorMsg))
    ∧ (maxOffsetYAccepted rej c = true →
      ∃ c', (maxOffsetY rej evs c).outcome = .ok c') := by
  by_cases hw : c.offsetY.writable = true
  · by_cases hr : rej c (.setOffsetY c.offsetY.min) = true
    · simp [maxOffsetY, maxOffsetYAccepted, roiFail, hw, hr]
    · have h := maxDims_accept_iff rej (evs ++ [.setOffsetY c.offsetY.min])
        (applyEvent c (.setOffsetY c.offsetY.min))
      simpa [maxOffsetY, maxOffsetYAccepted, hw, hr] using h
  · have h := maxDims_accept_iff rej evs c
    simpa [maxOffsetY, maxOffsetYAccepted, hw] using h

/-- `max_ROI` fails with the configuration error exactly when the
device rejects one of the writes it attempts, at whichever position,
and returns normally when all attempted writes are accepted. -/
theorem max_ROI_accept_iff (rej : RejectOracle) (cam : CameraState) :
    (maxROIAccepted rej cam = false →
      (max_ROI rej cam).outcome = .error (.runtimeException cfgErrorMsg))
    ∧ (maxROIAccepted rej cam = true →
      ∃ c', (max_ROI rej cam).outcome = .ok c') := by
  by_cases hw : cam.offsetX.writable = true
  · by_cases hr : rej cam (.setOffsetX cam.offsetX.min) = true
    · simp [max_ROI, maxROIAccepted, roiFail, hw, hr]
    · have h := maxOffsetY_accept_iff rej [.setOffsetX cam.offsetX.min]
        (applyEvent cam (.setOffsetX cam.offsetX.min))
      simpa [max_ROI, maxROIAccepted, hw, hr] using h
  · have h := maxOffsetY_accept_iff rej [] cam
    simpa [max_ROI, maxROIAccepted, hw] using h

/-- Claim C7: in every invocation of `change_ROI` or `max_ROI` in which
the device rejects one of the field assignments the run attempts — at
whichever position, width, height or either offset (`...Accepted =
false` holds exactly then) — the operation fails by raising the
configuration `genicam.RuntimeException` rather than returning
normally; when every attempted assignment is accepted it returns
normally; and any error that escapes either operation is that
configuration error (a rejection is never swallowed). -/
theorem roi_reject_propagates (rej : RejectOracle) (cam : CameraState) (d o : Nat × Nat) :
    (∀ e, (change_ROI rej cam d o).outcome = .error e → e = .runtimeException cfgErrorMsg)
    ∧ (∀ e, (max_ROI rej cam).outcome = .error e → e = .runtimeException cfgErrorMsg)
    ∧ (changeROIAccepted rej cam d o = false →
        (change_ROI rej cam d o).outcome = .error (.runtimeException cfgErrorMsg))
    ∧ (changeROIAccepted rej cam d o = true →
        ∃ c', (change_ROI rej cam d o).outcome = .ok c')
    ∧ (maxROIAccepted rej cam = false →
        (max_ROI rej cam).outcome = .error (.runtimeException cfgErrorMsg))
    ∧ (maxROIAccepted rej cam = true →
        ∃ c', (max_ROI rej cam).outcome = .ok c') := by
  obtain ⟨hc1, hc2⟩ := change_ROI_accept_iff rej cam d o
  obtain ⟨hm1, hm2⟩ := max_ROI_accept_iff rej cam
  exact ⟨fun e h => change_ROI_error rej cam d o e h,
    fun e h => max_ROI_error rej cam e h, hc1, hc2, hm1, hm2⟩

/-- Witness for `roi_reject_propagates`: a device that rejects every
write makes both operations fail with the configuration error (its
acceptance predicates are false), and a device that accepts every
write lets `change_ROI` return normally. -/
theorem roi_reject_propagates_witness :
    (change_ROI rejAll camA (64, 48) (2, 3)).outcome
      = Except.error (GenicamError.runtimeException cfgErrorMsg)
    ∧ (max_ROI rejAll camA).outcome
      = Except.error (GenicamError.runtimeException cfgErrorMsg)
    ∧ changeROIAccepted rejAll camA (64, 48) (2, 3) = false
    ∧ maxROIAccepted rejAll camA = false
    ∧ changeROIAccepted rejNone camA (64, 48) (2, 3) = true
    ∧ (change_ROI rejNone camA (64, 48) (2, 3)).outcome = Except.ok camA_rot := by
  have h := roi_reject_propagates rejAll camA (64, 48) (2, 3)
  exact ⟨h.2.2.1 (by decide), h.2.2.2.2.1 (by decide),
    by decide, by decide, by decide, by decide⟩

/-- Claim C1, amended: the obtained grab result is released exactly
once when the grab succeeds and conversion succeeds, and when the grab
reports failure; but when a device exception is raised during
conversion the obtained grab result is released zero times (the
exception skips the release line), and when retrieval itself raises no
grab result is obtained (zero releases).  (The claim as frozen —
released exactly once also on the conversion-exception path — fails,
see the counterexample.) -/
theorem take_one_release_per_path (env : CaptureEnv) :
    (∀ r, env.retrieve 5000 = .ok r → r.succeeded = true →
      (∀ a, env.convert r = .ok a → (take_one_opencv_image env).releases = 1)
      ∧ (∀ e, env.convert r = .error e → (take_one_opencv_image env).releases = 0))
    ∧ (∀ r, env.retrieve 5000 = .ok r → r.succeeded = false →
        (take_one_opencv_image env).releases = 1)
    ∧ (∀ e, env.retrieve 5000 = .error e →
        (take_one_opencv_image env).releases = 0) := by
  refine ⟨fun r hr hs => ⟨fun a hc => ?_, fun e hc => ?_⟩,
    fun r hr hs => ?_, fun e hr => ?_⟩
  · simp [take_one_opencv_image, hr, hs, hc]
  · simp [take_one_opencv_image, hr, hs, hc]
  · simp [take_one_opencv_image, hr, hs]
  · simp [take_one_opencv_image, hr]

/-- Counterexample to claim C1 as frozen: in `envConvertFails` a grab
result is obtained (and its grab succeeded), yet because `Convert`
raises, the function performs zero releases on it — not exactly one. -/
theorem take_one_release_leak :
    envConvertFails.retrieve 5000 = Except.ok grabOk
    ∧ grabOk.succeeded = true
    ∧ (take_one_opencv_image envConvertFails).releases = 0 :=
  ⟨rfl, rfl, rfl⟩

/-- Witness for `take_one_release_per_path` on three concrete
environments: success, failed grab, and retrieval exception. -/
theorem take_one_release_per_path_witness :
    (take_one_opencv_image envOkGrab).releases = 1
    ∧ (take_one_opencv_image envGrabFail).releases = 1
    ∧ (take_one_opencv_image envRetrieveErr).releases = 0 :=
  ⟨((take_one_release_per_path envOkGrab).1 grabOk rfl rfl).1 pixA rfl,
    (take_one_release_per_path envGrabFail).2.1 grabBad rfl rfl,
    (take_one_release_per_path envRetrieveErr).2.2
      (.genericException "device timeout") rfl⟩

/-- Claim C2 (code bug): evaluated on a failed grab result
(`envGrabFail`, error code 42, description "grab failed"), the function
does print the device error code and description and releases the grab
result — but then the final `return img` raises UnboundLocalError,
because `img` was never assigned on the failure branch, instead of
returning no image. -/
theorem take_one_grab_failure_eval :
    (take_one_opencv_image envGrabFail).printed = ["Error: 42 grab failed"]
    ∧ (take_one_opencv_image envGrabFail).releases = 1
    ∧ (take_one_opencv_image envGrabFail).result
        = Except.error (PyError.unboundLocalError "img") := by
  refine ⟨by decide, rfl, rfl⟩

/-- Claim C5: every invocation passes the fixed timeout 5000 to
`RetrieveResult`, and any device exception raised during retrieval is
caught: the function prints the exception description and returns
`None` (nothing escapes to the caller). -/
theorem take_one_timeout_and_catch (env : CaptureEnv) :
    (take_one_opencv_image env).timeoutArg = 5000
    ∧ ∀ e, env.retrieve 5000 = .error e →
        (take_one_opencv_image env).result = .ok none
        ∧ e.desc ∈ (take_one_opencv_image env).printed := by
  constructor
  · unfold take_one_opencv_image
    repeat' split
    all_goals rfl
  · intro e hr
    simp [take_one_opencv_image, hr]

/-- Witness for `take_one_timeout_and_catch` on the concrete
environment whose retrieval raises a timeout exception. -/
theorem take_one_timeout_and_catch_witness :
    (take_one_opencv_image envRetrieveErr).timeoutArg = 5000
    ∧ (take_one_opencv_image envRetrieveErr).result = Except.ok none
    ∧ "device timeout" ∈ (take_one_opencv_image envRetrieveErr).printed := by
  have h := take_one_timeout_and_catch envRetrieveErr
  have h2 := h.2 (.genericException "device timeout") rfl
  exact ⟨h.1, h2.1, by simpa [GenicamError.desc] using h2.2⟩

/-- Claim C8: `create_simple_camera` enumerates and selects the first
attached device, opens it, and only then applies the configuration
blob to its node map, in that order; it fails with the device error
when no device is present or when the blob cannot be applied, and a
load event can only occur after the open event. -/
theorem create_simple_camera_spec (env : SessionEnv) (path : String) :
    (∀ e, env.firstDevice = .error e →
        (create_simple_camera env path).outcome = .error e
        ∧ (create_simple_camera env path).events = [])
    ∧ (∀ d, env.firstDevice = .ok d → env.openDevice d = .ok () →
        (∀ e, env.loadConfig path = .error e →
          (create_simple_camera env path).outcome = .error e)
        ∧ (env.loadConfig path = .ok () →
            (create_simple_camera env path).events
              = [.createFirstDevice, .openDevice, .loadConfig path]
            ∧ (create_simple_camera env path).outcome = .ok d))
    ∧ (SessionEvent.loadConfig path ∈ (create_simple_camera env path).events →
        (create_simple_camera env path).events
          = [.createFirstDevice, .openDevice, .loadConfig path]) := by
  refine ⟨fun e he => ?_, fun d hd ho => ⟨fun e he => ?_, fun hl => ?_⟩, ?_⟩
  · constructor <;> simp [create_simple_camera, he]
  · simp [create_simple_camera, hd, ho, he]
  · constructor <;> simp [create_simple_camera, hd, ho, hl]
  · rcases h1 : env.firstDevice with e | d
    · simp [create_simple_camera, h1]
    · rcases h2 : env.openDevice d with e | u
      · simp [create_simple_camera, h1, h2]
      · rcases h3 : env.loadConfig path with e | u
        · simp [create_simple_camera, h1, h2, h3]
        · simp [create_simple_camera, h1, h2, h3]

/-- Witness for `create_simple_camera_spec` on three concrete session
environments: all steps succeed, no device attached, bad blob. -/
theorem create_simple_camera_spec_witness :
    (create_simple_camera sessOk "cam.pfs").events
      = [SessionEvent.createFirstDevice, SessionEvent.openDevice,
          SessionEvent.loadConfig "cam.pfs"]
    ∧ (create_simple_camera sessOk "cam.pfs").outcome = Except.ok devA
    ∧ (create_simple_camera sessNoDevice "cam.pfs").outcome
      = Except.error (GenicamError.runtimeException "no device is available")
    ∧ (create_simple_camera sessBadBlob "cam.pfs").outcome
      = Except.error (GenicamError.genericException "bad node map file") := by
  have h1 := (create_simple_camera_spec sessOk "cam.pfs").2.1 devA rfl rfl
  have h2 := (create_simple_camera_spec sessNoDevice "cam.pfs").1 _ rfl
  have h3 := (create_simple_camera_spec sessBadBlob "cam.pfs").2.1 devA rfl rfl
  exact ⟨(h1.2 rfl).1, (h1.2 rfl).2, h2.1, h3.1 _ rfl⟩

/-- Claim C9: when retrieval (with the fixed timeout 5000) and saving
succeed, `capture_and_save_png` performs, in order: the retrieval, the
buffer attachment, the PNG encode at the given path, the image
release, and the buffer release — and the underlying grab result
buffer is released exactly once. -/
theorem capture_and_save_png_run (env : SaveEnv) (fn : String) (r : GrabResult)
    (h1 : env.retrieve 5000 = .ok r) (h2 : env.save r fn = .ok ()) :
    (capture_and_save_png env fn).events =
      [.retrieveCall 5000, .attachBuffer, .savePng fn, .imageRelease, .bufferRelease]
    ∧ (capture_and_save_png env fn).outcome = .ok ()
    ∧ (capture_and_save_png env fn).events.count SaveEvent.bufferRelease = 1 := by
  have he : (capture_and_save_png env fn).events =
      [.retrieveCall 5000, .attachBuffer, .savePng fn, .imageRelease, .bufferRelease] := by
    simp [capture_and_save_png, h1, h2]
  refine ⟨he, by simp [capture_and_save_png, h1, h2], by rw [he]; rfl⟩

/-- Witness for `capture_and_save_png_run` at the concrete environment
`senvOk` and path "frame.png". -/
theorem capture_and_save_png_run_witness :
    (capture_and_save_png senvOk "frame.png").events =
      [SaveEvent.retrieveCall 5000, SaveEvent.attachBuffer, SaveEvent.savePng "frame.png",
        SaveEvent.imageRelease, SaveEvent.bufferRelease]
    ∧ (capture_and_save_png senvOk "frame.png").outcome = Except.ok ()
    ∧ (capture_and_save_png senvOk "frame.png").events.count SaveEvent.bufferRelease = 1 :=
  capture_and_save_png_run senvOk "frame.png" grabBad rfl rfl

/-- Claim C10: `capture_and_save_png` never consults the grab success
flag and installs no handler: a retrieved result whose grab failed is
still attached and saved as a PNG at the given path; an exception from
retrieval or saving propagates to the caller — whereas
`take_one_opencv_image` catches device exceptions during retrieval and
returns `None`. -/
theorem capture_and_save_png_no_check (env : SaveEnv) (fn : String) :
    (∀ r, env.retrieve 5000 = .ok r → r.succeeded = false → env.save r fn = .ok () →
        (capture_and_save_png env fn).events =
          [.retrieveCall 5000, .attachBuffer, .savePng fn, .imageRelease, .bufferRelease]
        ∧ (capture_and_save_png env fn).outcome = .ok ())
    ∧ (∀ e, env.retrieve 5000 = .error e →
        (capture_and_save_png env fn).outcome = .error e)
    ∧ (∀ r e, env.retrieve 5000 = .ok r → env.save r fn = .error e →
        (capture_and_save_png env fn).outcome = .error e
        ∧ (capture_and_save_png env fn).events =
            [.retrieveCall 5000, .attachBuffer, .bufferRelease])
    ∧ (∀ cenv : CaptureEnv, ∀ e, cenv.retrieve 5000 = .error e →
        (take_one_opencv_image cenv).result = .ok none) := by
  refine ⟨fun r h1 hs h2 => ?_, fun e h1 => ?_, fun r e h1 h2 => ?_, fun cenv e h => ?_⟩
  · constructor <;> simp [capture_and_save_png, h1, h2]
  · simp [capture_and_save_png, h1]
  · constructor <;> simp [capture_and_save_png, h1, h2]
  · simp [take_one_opencv_image, h]

/-- Witness for `capture_and_save_png_no_check` on concrete
environments: failed grab still saved, retrieval and save errors
propagate, and the contrasting catch in `take_one_opencv_image`. -/
theorem capture_and_save_png_no_check_witness :
    (capture_and_save_png senvOk "frame.png").outcome = Except.ok ()
    ∧ (capture_and_save_png senvRetrieveErr "frame.png").outcome
        = Except.error (GenicamError.genericException "device timeout")
    ∧ (capture_and_save_png senvSaveErr "frame.png").outcome
        = Except.error (GenicamError.genericException "write failed")
    ∧ (take_one_opencv_image envRetrieveErr).result = Except.ok none :=
  ⟨((capture_and_save_png_no_check senvOk "frame.png").1 grabBad rfl rfl rfl).2,
    (capture_and_save_png_no_check senvRetrieveErr "frame.png").2.1 _ rfl,
    ((capture_and_save_png_no_check senvSaveErr "frame.png").2.2.1 grabBad _ rfl rfl).1,
    (capture_and_save_png_no_check senvOk "unused").2.2.2 envRetrieveErr _ rfl⟩
